import Mathlib

/-!
Verification of the Local Feather device backend (Flask server under
src/server/app) against its natural-language specification.

The embedding models the three device-facing endpoint groups with real
protocol logic: the readings ingestion endpoint (app/api/readings.py),
the OTA endpoints (app/api/ota.py), and the rate-limit key derivation
(app/api/readings.py, app/api/__init__.py).  The database is a record of
lists mirroring the SQLAlchemy models (app/models.py); each endpoint is a
pure function from request data and database state to a response and a
new database state.  The bcrypt hash is abstracted as a pair of functions
with a soundness hypothesis; `secrets.token_hex` and wall-clock time are
explicit parameters.
-/

namespace LocalFeather

/-- A JSON scalar as it can appear in the `value` field of a submitted
reading: absent-or-null, boolean, number, or string. -/
inductive JVal where
  | jnull
  | jbool (b : Bool)
  | jnum (q : Rat)
  | jstr (s : String)
  deriving DecidableEq

/-- Python truthiness of an optional string (None and the empty string are
falsy; every other string is truthy). -/
def truthyS : Option String → Bool
  | some s => !(s == "")
  | none => false

/-- Numeric value of a list of decimal digit characters. -/
def digitsToNat (cs : List Char) : Nat :=
  cs.foldl (fun a c => a * 10 + (c.toNat - 48)) 0

/-- Parse an unsigned decimal literal (digits, optionally a point and more
digits), as accepted by Python `Decimal`; `none` models the constructor
raising `InvalidOperation`. -/
def parseUnsigned (cs : List Char) : Option Rat :=
  let intPart := cs.takeWhile (·.isDigit)
  let rest := cs.dropWhile (·.isDigit)
  match rest with
  | [] => if intPart.isEmpty then none else some (digitsToNat intPart : Rat)
  | '.' :: frac =>
    if frac.all (·.isDigit) && !(intPart.isEmpty && frac.isEmpty) then
      some ((digitsToNat intPart : Rat) + (digitsToNat frac : Rat) / ((10 : Rat) ^ frac.length))
    else none
  | _ => none

/-- Parse a signed decimal literal, as accepted by Python `Decimal`. -/
def parseDecimal (s : String) : Option Rat :=
  match s.data with
  | '-' :: cs => (parseUnsigned cs).map (fun q => -q)
  | '+' :: cs => parseUnsigned cs
  | cs => parseUnsigned cs

/-- Model of `Decimal(str(value))` in readings.py: a JSON number converts
to its exact value, a string is parsed as a decimal literal, and booleans
render as "True"/"False" which `Decimal` rejects (an exception); the null
case is unreachable because validation already checked `value is not None`. -/
def pyDecimal : JVal → Option Rat
  | .jnum q => some q
  | .jstr s => parseDecimal s
  | .jbool _ => none
  | .jnull => none

/-- A row of the `devices` table (app/models.py, class Device).  The
`api_key` column stores the bcrypt hash, never the plaintext. -/
structure Device where
  id : Nat
  device_id : String
  api_key : String
  approved : Bool
  firmware_version : Option String
  reading_interval : Nat
  ip_address : Option String
  mac_address : Option String
  wifi_ssid : Option String
  signal_strength : Option Int
  last_seen : Option Nat
  last_reading_at : Option Nat
  total_readings : Nat
  deriving DecidableEq

/-- A row of the `readings` table (app/models.py, class Reading). -/
structure Reading where
  device_id : Nat
  sensor : String
  value : Rat
  unit : String
  timestamp : Nat
  received_at : Nat
  deriving DecidableEq

/-- A row of the `firmware` table (app/models.py, class Firmware). -/
structure Firmware where
  id : Nat
  version : String
  filename : String
  file_size : Nat
  release_notes : Option String
  uploaded_at : Nat
  active : Bool
  download_count : Nat
  deriving DecidableEq

/-- A row of the `device_updates` table (app/models.py, class DeviceUpdate). -/
structure DeviceUpdate where
  id : Nat
  device_id : Nat
  firmware_id : Nat
  previous_version : Option String
  new_version : String
  update_started_at : Nat
  update_completed_at : Option Nat
  status : String
  error_message : Option String
  deriving DecidableEq

/-- The database state: the four tables the device-facing endpoints touch,
plus the autoincrement counters. -/
structure DB where
  devices : List Device
  readings : List Reading
  firmwares : List Firmware
  updates : List DeviceUpdate
  nextDeviceId : Nat
  nextUpdateId : Nat
  deriving DecidableEq

/-- The bcrypt interface used by readings.py: `hash` models
`generate_password_hash` and `check` models `check_password_hash`
(arguments: stored hash, presented key). -/
structure HashFn where
  hash : String → String
  check : String → String → Bool

/-- Soundness of the hash oracle: verification succeeds exactly on the
hashed key.  Theorems about authentication take this as a hypothesis. -/
def HashSound (H : HashFn) : Prop :=
  ∀ k k', H.check (H.hash k) k' = true ↔ k' = k

/-- One item of the `readings` array of a submission.  `none` in a field
models the key being absent (dict.get returns None); the `value` field
keeps the full JSON scalar since the code inspects it twice. -/
structure ReadingItem where
  sensor : Option String
  value : JVal
  unit : Option String
  timestamp : Option Nat
  deriving DecidableEq

/-- The JSON body of a POST /api/readings request.  `none` models an
absent key (all lookups in the code go through dict.get or `in`). -/
structure ReadingsRequest where
  device_id : Option String
  api_key : Option String
  firmware_version : Option String
  mac_address : Option String
  wifi_ssid : Option String
  signal_strength : Option Int
  readings : List ReadingItem
  deriving DecidableEq

/-- The response of POST /api/readings, one constructor per distinct
response shape in readings.py (400, the 200 registration reply, 401, 403,
the 200 success reply, 500) plus the 429 produced by the rate limiter. -/
inductive ReadingsResponse where
  | badRequest
  | registered (api_key : String) (approved : Bool) (device_id : String)
  | unauthorized
  | pendingApproval
  | ok (received : Nat) (device_id : String) (reading_interval : Option Nat)
  | internalError
  | rateLimited
  deriving DecidableEq

/-- Per-item validation in readings.py line 153:
`all([sensor, value is not None, unit])`. -/
def validReading (it : ReadingItem) : Bool :=
  truthyS it.sensor && !(it.value == JVal.jnull) && truthyS it.unit

/-- Timestamp resolution (readings.py lines 158 to 164): a truthy supplied
Unix timestamp is used, otherwise the current server time. -/
def resolveTs (now : Nat) : Option Nat → Nat
  | some t => if t == 0 then now else t
  | none => now

/-- The reading-processing loop of readings.py (lines 144 to 176): items
failing validation are skipped; a validated item whose value `Decimal`
rejects raises, aborting the whole request (`none`); otherwise each item
becomes a Reading row in order. -/
def processReadings (devDbId : Nat) (now : Nat) : List ReadingItem → Option (List Reading)
  | [] => some []
  | it :: rest =>
    if validReading it then
      match pyDecimal it.value with
      | none => none
      | some q =>
        match processReadings devDbId now rest with
        | none => none
        | some rs =>
          some ({ device_id := devDbId
                  sensor := it.sensor.getD ""
                  value := q
                  unit := it.unit.getD ""
                  timestamp := resolveTs now it.timestamp
                  received_at := now } :: rs)
    else processReadings devDbId now rest

/-- POST /api/readings (readings.py, post_readings).  `freshKey` models
`secrets.token_hex(32)`, `now` the current time, `remote_addr` the source
address; `body = none` models a missing or empty JSON body.  Returns the
response and the committed database (the incoming database unchanged on
every early return and on rollback). -/
def post_readings (H : HashFn) (freshKey : String) (now : Nat) (remote_addr : String)
    (body : Option ReadingsRequest) (db : DB) : ReadingsResponse × DB :=
  match body with
  | none => (.badRequest, db)
  | some data =>
    if !truthyS data.device_id then (.badRequest, db)
    else if data.readings.isEmpty then (.badRequest, db)
    else
      let did := data.device_id.getD ""
      let api_key := (data.api_key.getD "")
      match db.devices.find? (fun d => d.device_id == did) with
      | none =>
        let key := if api_key == "" then freshKey else api_key
        let newDev : Device :=
          { id := db.nextDeviceId
            device_id := did
            api_key := H.hash key
            approved := false
            firmware_version := data.firmware_version
            reading_interval := 60000
            ip_address := some remote_addr
            mac_address := none
            wifi_ssid := none
            signal_strength := none
            last_seen := some now
            last_reading_at := none
            total_readings := 0 }
        (.registered key false did,
          { db with devices := db.devices ++ [newDev], nextDeviceId := db.nextDeviceId + 1 })
      | some dev =>
        if !(H.check dev.api_key api_key) then (.unauthorized, db)
        else if !dev.approved then (.pendingApproval, db)
        else
          match processReadings dev.id now data.readings with
          | none => (.internalError, db)
          | some rows =>
            let dev' : Device :=
              { dev with
                last_seen := some now
                ip_address := some remote_addr
                firmware_version :=
                  if data.firmware_version.isSome then data.firmware_version
                  else dev.firmware_version
                mac_address :=
                  if data.mac_address.isSome then data.mac_address else dev.mac_address
                wifi_ssid :=
                  if data.wifi_ssid.isSome then data.wifi_ssid else dev.wifi_ssid
                signal_strength :=
                  if data.signal_strength.isSome then data.signal_strength
                  else dev.signal_strength
                last_reading_at := some now
                total_readings := dev.total_readings + rows.length }
            (.ok rows.length did
                (if dev.reading_interval ≠ 0 then some dev.reading_interval else none),
              { db with
                devices := db.devices.map (fun d => if d.id == dev.id then dev' else d)
                readings := db.readings ++ rows })

/-- The JSON object of a successful GET /api/ota/check response
(ota.py lines 67 to 78 plus the no-firmware reply at lines 58 to 62);
`none` in an optional field means the key is absent from the dict. -/
structure OtaCheckOk where
  update_available : Bool
  current_version : String
  new_version : Option String := none
  file_size : Option Nat := none
  url : Option String := none
  release_notes : Option (Option String) := none
  message : Option String := none
  deriving DecidableEq

/-- The response of GET /api/ota/check. -/
inductive OtaCheckResponse where
  | badRequest
  | notFound
  | ok (body : OtaCheckOk)
  deriving DecidableEq

/-- The latest active firmware: `filter_by(active=True).order_by(uploaded_at
desc).first()` (ota.py lines 52 to 55).  Among equal upload timestamps the
later row wins, mirroring last-write-wins insertion order. -/
def latestActive (fws : List Firmware) : Option Firmware :=
  fws.foldl
    (fun acc fw =>
      if fw.active then
        match acc with
        | none => some fw
        | some b => if fw.uploaded_at ≥ b.uploaded_at then some fw else some b
      else acc)
    none

/-- GET /api/ota/check (ota.py, ota_check).  The two query parameters are
`none` when absent; a missing `version` defaults to "0.0.0".  The endpoint
reads the database and never changes it. -/
def ota_check (device_id : Option String) (version : Option String) (db : DB) :
    OtaCheckResponse :=
  let current_version := version.getD "0.0.0"
  if !truthyS device_id then .badRequest
  else
    match db.devices.find? (fun d => d.device_id == device_id.getD "") with
    | none => .notFound
    | some _ =>
      match latestActive db.firmwares with
      | none =>
        .ok { update_available := false, current_version
              message := some "No firmware available" }
      | some fw =>
        if fw.version != current_version then
          .ok { update_available := true, current_version
                new_version := some fw.version
                file_size := some fw.file_size
                url := some ("/api/ota/download/" ++ fw.version)
                release_notes := some fw.release_notes }
        else
          .ok { update_available := false, current_version }

/-- The response of GET /api/ota/download: the 404 for an unknown or
inactive version, the 404 for a record whose binary is missing from
storage, and the served file. -/
inductive OtaDownloadResponse where
  | notFound
  | fileMissing
  | file (version : String) (filename : String)
  deriving DecidableEq

/-- GET /api/ota/download/(version) (ota.py, ota_download).  `fileExists`
models `os.path.exists` on the stored firmware file; `now` stamps the
DeviceUpdate row.  The tracking writes are committed before the file check,
so they persist even when the binary is missing. -/
def ota_download (version : String) (device_id : Option String) (fileExists : Bool)
    (now : Nat) (db : DB) : OtaDownloadResponse × DB :=
  match db.firmwares.find? (fun f => f.version == version && f.active) with
  | none => (.notFound, db)
  | some fw =>
    let db' :=
      if truthyS device_id then
        match db.devices.find? (fun d => d.device_id == device_id.getD "") with
        | none => db
        | some dev =>
          { db with
            updates := db.updates ++
              [{ id := db.nextUpdateId
                 device_id := dev.id
                 firmware_id := fw.id
                 previous_version := dev.firmware_version
                 new_version := version
                 update_started_at := now
                 update_completed_at := none
                 status := "downloading"
                 error_message := none }]
            nextUpdateId := db.nextUpdateId + 1
            firmwares := db.firmwares.map
              (fun f => if f.id == fw.id then { f with download_count := f.download_count + 1 } else f) }
      else db
    if !fileExists then (.fileMissing, db')
    else (.file version fw.filename, db')

/-- The JSON body of a POST /api/ota/status request; `none` models an
absent key. -/
structure OtaStatusRequest where
  device_id : Option String
  version : Option String
  status : Option String
  error_message : Option String
  deriving DecidableEq

/-- The response of POST /api/ota/status. -/
inductive OtaStatusResponse where
  | badRequest
  | notFound
  | ok
  deriving DecidableEq

/-- The update record ota_status mutates: among rows matching the device
and target version, the most recently started one
(`order_by(update_started_at desc).first()`, ota.py lines 206 to 209);
the later row wins equal timestamps. -/
def findLatestUpdate (ups : List DeviceUpdate) (devDbId : Nat) (ver : String) :
    Option DeviceUpdate :=
  ups.foldl
    (fun acc u =>
      if u.device_id == devDbId && u.new_version == ver then
        match acc with
        | none => some u
        | some b => if u.update_started_at ≥ b.update_started_at then some u else some b
      else acc)
    none

/-- POST /api/ota/status (ota.py, ota_status).  Validation is the presence
check `all([device_id, version, status])`; the status value itself is not
inspected before being stored, except for the comparison with "success"
that drives the firmware_version update. -/
def ota_status (body : Option OtaStatusRequest) (now : Nat) (db : DB) :
    OtaStatusResponse × DB :=
  match body with
  | none => (.badRequest, db)
  | some data =>
    if !(truthyS data.device_id && truthyS data.version && truthyS data.status) then
      (.badRequest, db)
    else
      let did := data.device_id.getD ""
      let ver := data.version.getD ""
      let st := data.status.getD ""
      match db.devices.find? (fun d => d.device_id == did) with
      | none => (.notFound, db)
      | some dev =>
        let db1 :=
          match findLatestUpdate db.updates dev.id ver with
          | none => db
          | some u =>
            { db with
              updates := db.updates.map (fun v =>
                if v.id == u.id then
                  { v with
                    status := st
                    update_completed_at := some now
                    error_message :=
                      if truthyS data.error_message then data.error_message
                      else v.error_message }
                else v) }
        let db2 :=
          if st == "success" then
            { db1 with
              devices := db1.devices.map (fun d =>
                if d.id == dev.id then { d with firmware_version := some ver } else d) }
          else db1
        (.ok, db2)

/-- The in-memory rate-limiter state: the accepted requests as (key, time)
pairs, newest first. -/
structure LimiterState where
  accepted : List (String × Nat)
  deriving DecidableEq

/-- Modelled from the spec: the throttle in front of the ingestion endpoint
is provided by the flask_limiter library (configured with "60 per minute"
in app/api/__init__.py but implemented outside this repository); per §4.4
it is a per-key budget of 60 accepted requests per rolling minute.  A
request at time `t` is admitted when fewer than 60 accepted requests with
the same key fall in the window (t - 60, t]. -/
def rateLimitAllow (st : LimiterState) (key : String) (t : Nat) : Bool × LimiterState :=
  if (st.accepted.countP (fun p => p.1 == key && t < p.2 + 60)) < 60 then
    (true, ⟨(key, t) :: st.accepted⟩)
  else
    (false, st)

/-- The rate-limit key (readings.py, get_rate_limit_key): the device_id
from the JSON body when the body parses and has that key, otherwise the
source address. -/
def get_rate_limit_key (body : Option ReadingsRequest) (remote_addr : String) : String :=
  match body with
  | some data =>
    match data.device_id with
    | some did => "device:" ++ did
    | none => "ip:" ++ remote_addr
  | none => "ip:" ++ remote_addr

/-- One inbound ingestion request with its per-request environment. -/
structure IngestRequest where
  freshKey : String
  now : Nat
  remote_addr : String
  body : Option ReadingsRequest
  deriving DecidableEq

/-- The ingestion endpoint behind the limiter (app/api/__init__.py,
apply_rate_limits): the limiter consults the key first; a rejected request
is answered 429 without the endpoint running, so the database is untouched. -/
def gatedPostReadings (H : HashFn) (r : IngestRequest) (st : LimiterState) (db : DB) :
    ReadingsResponse × LimiterState × DB :=
  let key := get_rate_limit_key r.body r.remote_addr
  let res := rateLimitAllow st key r.now
  if res.1 then
    let pr := post_readings H r.freshKey r.now r.remote_addr r.body db
    (pr.1, res.2, pr.2)
  else (.rateLimited, res.2, db)

/-- A sequence of ingestion requests through the gate, returning the
responses in order. -/
def runGate (H : HashFn) (st : LimiterState) (db : DB) :
    List IngestRequest → List ReadingsResponse
  | [] => []
  | r :: rest =>
    let g := gatedPostReadings H r st db
    g.1 :: runGate H g.2.1 g.2.2 rest

/-- A concrete hash oracle for witnesses: the identity as the hash and
string equality as the check.  It satisfies `HashSound`; one-wayness is no
part of the formal interface. -/
def idHash : HashFn := ⟨fun k => k, fun h k' => h == k'⟩

theorem idHash_sound : HashSound idHash := by
  intro k k'
  simp only [idHash, beq_iff_eq]
  exact eq_comm

/-- Does a response carry a plaintext credential (the registration reply is
the only constructor that does)? -/
def isRegistered : ReadingsResponse → Bool
  | .registered _ _ _ => true
  | _ => false

/-- An approved sample device whose stored key under `idHash` is the hash
of "secret1". -/
def sampleDev : Device :=
  { id := 1
    device_id := "esp32-a1"
    api_key := "secret1"
    approved := true
    firmware_version := some "1.0.0"
    reading_interval := 60000
    ip_address := none
    mac_address := none
    wifi_ssid := none
    signal_strength := none
    last_seen := none
    last_reading_at := none
    total_readings := 5 }

/-- A database holding only the approved sample device. -/
def sampleDB : DB :=
  { devices := [sampleDev]
    readings := []
    firmwares := []
    updates := []
    nextDeviceId := 2
    nextUpdateId := 1 }

/-- An empty database. -/
def emptyDB : DB :=
  { devices := []
    readings := []
    firmwares := []
    updates := []
    nextDeviceId := 1
    nextUpdateId := 1 }

/-- Claim C10: a readings submission without a device_id, or whose readings
array is absent or empty, is rejected with 400 and the database is
untouched, so an unseen device_id with an empty batch is never registered
and no credential is issued. -/
theorem c10_missing_fields_rejected (H : HashFn) (freshKey : String) (now : Nat)
    (addr : String) (body : Option ReadingsRequest) (db : DB)
    (h : body = none ∨ ∃ data, body = some data ∧
        (data.device_id = none ∨ data.device_id = some "" ∨ data.readings = [])) :
    post_readings H freshKey now addr body db = (.badRequest, db) := by
  rcases h with rfl | ⟨data, rfl, h | h | h⟩
  · rfl
  · simp [post_readings, truthyS, h]
  · simp [post_readings, truthyS, h]
  · simp [post_readings, truthyS, h]

/-- Witness for C10 at a concrete input: an unseen device_id submitted with
an empty readings array is rejected and the empty database stays empty. -/
theorem c10_missing_fields_rejected_witness :
    post_readings idHash "fresh" 0 "10.0.0.1"
        (some { device_id := some "esp32-new", api_key := none, firmware_version := none
                mac_address := none, wifi_ssid := none, signal_strength := none
                readings := [] }) emptyDB =
      (.badRequest, emptyDB) := by
  apply c10_missing_fields_rejected
  right
  exact ⟨_, rfl, Or.inr (Or.inr rfl)⟩

/-- Once a device row exists for the submitted device_id, no branch of
post_readings produces the registration reply, so the plaintext credential
is never transmitted again. -/
theorem post_readings_found_not_registered (H : HashFn) (fk : String) (n : Nat)
    (a : String) (data : ReadingsRequest) (db : DB) (dev : Device)
    (hfound : db.devices.find? (fun d => d.device_id == data.device_id.getD "") = some dev) :
    isRegistered (post_readings H fk n a (some data) db).1 = false := by
  unfold post_readings
  simp only [hfound]
  split
  · rfl
  · split
    · rfl
    · split
      · rfl
      · split
        · rfl
        · split <;> rfl

/-- Claim C1: the first submission for an unseen device_id creates an
unapproved Device storing only the hash of the secret, answers with the
registration reply carrying the plaintext exactly once (the fresh generated
secret when the caller sent none), and no submission for the device ever
returns the plaintext after the row exists. -/
theorem c1_first_contact_registration (H : HashFn) (freshKey : String) (now : Nat)
    (addr : String) (data : ReadingsRequest) (db : DB) (did : String)
    (hdid : data.device_id = some did) (hne : did ≠ "")
    (hreads : data.readings ≠ [])
    (hnew : db.devices.find? (fun d => d.device_id == did) = none) :
    (post_readings H freshKey now addr (some data) db).1 =
        .registered (if data.api_key.getD "" == "" then freshKey else data.api_key.getD "")
          false did
    ∧ (∃ newDev,
        (post_readings H freshKey now addr (some data) db).2.devices =
            db.devices ++ [newDev]
        ∧ newDev.device_id = did
        ∧ newDev.approved = false
        ∧ newDev.api_key =
            H.hash (if data.api_key.getD "" == "" then freshKey else data.api_key.getD ""))
    ∧ (data.api_key = none →
        (post_readings H freshKey now addr (some data) db).1 =
          .registered freshKey false did)
    ∧ (∀ (H2 : HashFn) (fk2 : String) (n2 : Nat) (a2 : String)
        (body2 : ReadingsRequest) (db2 : DB) (dev2 : Device),
        body2.device_id = some did →
        db2.devices.find? (fun d => d.device_id == did) = some dev2 →
        isRegistered (post_readings H2 fk2 n2 a2 (some body2) db2).1 = false) := by
  have h1 : truthyS (some did) = true := by simp [truthyS, hne]
  have h2 : data.readings.isEmpty = false := by
    cases hr : data.readings with
    | nil => exact absurd hr hreads
    | cons a l => rfl
  refine ⟨?_, ?_, ?_, ?_⟩
  · simp [post_readings, hdid, h1, h2, hnew]
  · refine ⟨{ id := db.nextDeviceId
              device_id := did
              api_key := H.hash
                (if data.api_key.getD "" == "" then freshKey else data.api_key.getD "")
              approved := false
              firmware_version := data.firmware_version
              reading_interval := 60000
              ip_address := some addr
              mac_address := none
              wifi_ssid := none
              signal_strength := none
              last_seen := some now
              last_reading_at := none
              total_readings := 0 }, ?_, rfl, rfl, rfl⟩
    simp [post_readings, hdid, h1, h2, hnew]
  · intro hak
    simp [post_readings, hdid, h1, h2, hnew, hak]
  · intro H2 fk2 n2 a2 body2 db2 dev2 hbd hfound
    apply post_readings_found_not_registered
    rw [hbd]
    exact hfound

/-- Witness for C1: a first contact on the empty database with no client
key returns the generated secret in the registration reply. -/
theorem c1_first_contact_registration_witness :
    (post_readings idHash "freshsecret" 100 "10.0.0.9"
        (some { device_id := some "esp32-new", api_key := none, firmware_version := none
                mac_address := none, wifi_ssid := none, signal_strength := none
                readings := [{ sensor := some "temperature", value := .jnum 23.5
                               unit := some "C", timestamp := none }] }) emptyDB).1 =
      .registered "freshsecret" false "esp32-new" :=
  (c1_first_contact_registration idHash "freshsecret" 100 "10.0.0.9" _ emptyDB
    "esp32-new" rfl (by decide) (by decide) rfl).1

/-- Claim C2: on an existing device, a wrong secret yields the 401
authentication failure and a correct secret on an unapproved device yields
the distinct 403 pending-approval outcome; both leave the database (and so
the readings table) untouched. -/
theorem c2_auth_outcomes (H : HashFn) (hH : HashSound H) (freshKey : String)
    (now : Nat) (addr : String) (data : ReadingsRequest) (db : DB)
    (did : String) (dev : Device) (kc : String)
    (hdid : data.device_id = some did) (hne : did ≠ "")
    (hreads : data.readings ≠ [])
    (hfound : db.devices.find? (fun d => d.device_id == did) = some dev)
    (hstored : dev.api_key = H.hash kc) :
    (data.api_key.getD "" ≠ kc →
      post_readings H freshKey now addr (some data) db = (.unauthorized, db))
    ∧ (data.api_key.getD "" = kc → dev.approved = false →
      post_readings H freshKey now addr (some data) db = (.pendingApproval, db))
    ∧ ReadingsResponse.unauthorized ≠ ReadingsResponse.pendingApproval := by
  have h1 : truthyS (some did) = true := by simp [truthyS, hne]
  have h2 : data.readings.isEmpty = false := by
    cases hr : data.readings with
    | nil => exact absurd hr hreads
    | cons a l => rfl
  refine ⟨?_, ?_, by decide⟩
  · intro hk
    have hc : H.check dev.api_key (data.api_key.getD "") = false := by
      cases hcb : H.check dev.api_key (data.api_key.getD "") with
      | false => rfl
      | true => exact absurd ((hH kc _).mp (hstored ▸ hcb)) hk
    simp [post_readings, hdid, h1, h2, hfound, hc]
  · intro hk hap
    have hc : H.check dev.api_key (data.api_key.getD "") = true := by
      rw [hstored]
      exact (hH kc _).mpr hk
    simp [post_readings, hdid, h1, h2, hfound, hc, hap]

/-- Witness for C2: a wrong secret against the stored hash of "secret1" is
answered 401 with the sample database unchanged. -/
theorem c2_auth_outcomes_witness :
    post_readings idHash "fk" 5 "10.0.0.2"
        (some { device_id := some "esp32-a1", api_key := some "wrong"
                firmware_version := none, mac_address := none, wifi_ssid := none
                signal_strength := none
                readings := [{ sensor := some "temperature", value := .jnum 1
                               unit := some "C", timestamp := none }] }) sampleDB =
      (.unauthorized, sampleDB) :=
  (c2_auth_outcomes idHash idHash_sound "fk" 5 "10.0.0.2" _ sampleDB
    "esp32-a1" sampleDev "secret1" rfl (by decide) (by decide) rfl rfl).1 (by decide)

/-- The well-formedness of a reading as the spec words it: a non-empty
sensor name, a numeric (JSON number) value, and a non-empty unit. -/
def wellFormedReading (it : ReadingItem) : Bool :=
  truthyS it.sensor
    && (match it.value with | .jnum _ => true | _ => false)
    && truthyS it.unit

/-- When every validated item carries a JSON number, the spec's
well-formedness and the code's validation coincide pointwise. -/
theorem wellFormed_eq_valid_of (it : ReadingItem)
    (h : validReading it = true → ∃ q, it.value = JVal.jnum q) :
    wellFormedReading it = validReading it := by
  cases hval : it.value with
  | jnum q =>
    have hb : (JVal.jnum q == JVal.jnull) = false := by
      rw [beq_eq_false_iff_ne]
      intro hq
      cases hq
    simp [wellFormedReading, validReading, hval, hb]
  | jnull => simp [wellFormedReading, validReading, hval]
  | jbool b =>
    cases hv : validReading it with
    | false => simp [wellFormedReading, hval]
    | true =>
      obtain ⟨q, hq⟩ := h hv
      rw [hval] at hq
      cases hq
  | jstr s =>
    cases hv : validReading it with
    | false => simp [wellFormedReading, hval]
    | true =>
      obtain ⟨q, hq⟩ := h hv
      rw [hval] at hq
      cases hq

/-- The reading loop run to completion: under the numeric-value hypothesis
it never raises and produces one row per item passing validation. -/
theorem processReadings_total (devId now : Nat) (L : List ReadingItem)
    (h : ∀ it ∈ L, validReading it = true → ∃ q, it.value = JVal.jnum q) :
    ∃ rows, processReadings devId now L = some rows ∧
      rows.length = L.countP (fun it => validReading it) := by
  induction L with
  | nil => exact ⟨[], rfl, by simp⟩
  | cons it rest ih =>
    obtain ⟨rows, hrows, hlen⟩ := ih (fun x hx => h x (List.mem_cons_of_mem _ hx))
    by_cases hv : validReading it = true
    · obtain ⟨q, hq⟩ := h it (List.mem_cons_self _ _) hv
      refine ⟨{ device_id := devId
                sensor := it.sensor.getD ""
                value := q
                unit := it.unit.getD ""
                timestamp := resolveTs now it.timestamp
                received_at := now } :: rows, ?_, ?_⟩
      · simp [processReadings, hv, hq, pyDecimal, hrows]
      · simp [List.countP_cons, hv, hlen]
    · refine ⟨rows, ?_, ?_⟩
      · simp [processReadings, hv, hrows]
      · simp [List.countP_cons, hv, hlen]

/-- The pointwise agreement lifted to the batch count. -/
theorem countP_wellFormed_eq_valid (L : List ReadingItem)
    (h : ∀ it ∈ L, validReading it = true → ∃ q, it.value = JVal.jnum q) :
    L.countP (fun it => wellFormedReading it) = L.countP (fun it => validReading it) := by
  induction L with
  | nil => rfl
  | cons it rest ih =>
    rw [List.countP_cons, List.countP_cons,
      wellFormed_eq_valid_of it (h it (List.mem_cons_self _ _)),
      ih (fun x hx => h x (List.mem_cons_of_mem _ hx))]

/-- Claim C3 (amended): for an approved, authenticated device, a batch
whose validated items all carry JSON-number values persists exactly one
Reading row per well-formed item (non-empty sensor, numeric value,
non-empty unit), reports that count, and raises total_readings by it;
items failing validation are skipped without failing the batch.  (A batch
item passing the code's validation with a non-null non-numeric value
instead aborts the whole request; see the counterexample.) -/
theorem c3_batch_ingestion (H : HashFn) (hH : HashSound H) (freshKey : String)
    (now : Nat) (addr : String) (data : ReadingsRequest) (db : DB)
    (did : String) (dev : Device) (kc : String)
    (hdid : data.device_id = some did) (hne : did ≠ "")
    (hreads : data.readings ≠ [])
    (hfound : db.devices.find? (fun d => d.device_id == did) = some dev)
    (hstored : dev.api_key = H.hash kc)
    (hauth : data.api_key.getD "" = kc)
    (happr : dev.approved = true)
    (hnum : ∀ it ∈ data.readings, validReading it = true → ∃ q, it.value = JVal.jnum q) :
    ∃ rows dev',
      post_readings H freshKey now addr (some data) db =
        (.ok (data.readings.countP (fun it => wellFormedReading it)) did
            (if dev.reading_interval ≠ 0 then some dev.reading_interval else none),
          { db with
            devices := db.devices.map (fun d => if d.id == dev.id then dev' else d)
            readings := db.readings ++ rows })
      ∧ rows.length = data.readings.countP (fun it => wellFormedReading it)
      ∧ dev'.total_readings = dev.total_readings +
          data.readings.countP (fun it => wellFormedReading it) := by
  have h1 : truthyS (some did) = true := by simp [truthyS, hne]
  have h2 : data.readings.isEmpty = false := by
    cases hr : data.readings with
    | nil => exact absurd hr hreads
    | cons a l => rfl
  have hc : H.check dev.api_key (data.api_key.getD "") = true := by
    rw [hstored]
    exact (hH kc _).mpr hauth
  obtain ⟨rows, hpr, hlen⟩ := processReadings_total dev.id now data.readings hnum
  have hcw := countP_wellFormed_eq_valid data.readings hnum
  refine ⟨rows,
    { dev with
      last_seen := some now
      ip_address := some addr
      firmware_version :=
        if data.firmware_version.isSome then data.firmware_version
        else dev.firmware_version
      mac_address :=
        if data.mac_address.isSome then data.mac_address else dev.mac_address
      wifi_ssid :=
        if data.wifi_ssid.isSome then data.wifi_ssid else dev.wifi_ssid
      signal_strength :=
        if data.signal_strength.isSome then data.signal_strength
        else dev.signal_strength
      last_reading_at := some now
      total_readings := dev.total_readings + rows.length }, ?_, ?_, ?_⟩
  · rw [hcw, ← hlen]
    simp [post_readings, hdid, h1, h2, hfound, hc, happr, hpr]
  · rw [hcw, hlen]
  · rw [hcw, hlen]

/-- Witness for C3 (amended): a batch of one well-formed and one
validation-failing reading (empty unit) against the approved sample device
persists one row and reports one received. -/
theorem c3_batch_ingestion_witness :
    ∃ rows dev',
      post_readings idHash "fk" 7 "10.0.0.2"
          (some { device_id := some "esp32-a1", api_key := some "secret1"
                  firmware_version := none, mac_address := none, wifi_ssid := none
                  signal_strength := none
                  readings := [{ sensor := some "temperature", value := .jnum 21
                                 unit := some "C", timestamp := none },
                               { sensor := some "humidity", value := .jnum 40
                                 unit := some "", timestamp := none }] }) sampleDB =
        (.ok ((([{ sensor := some "temperature", value := .jnum 21
                   unit := some "C", timestamp := none },
                 { sensor := some "humidity", value := .jnum 40
                   unit := some "", timestamp := none }] :
                List ReadingItem).countP (fun it => wellFormedReading it))) "esp32-a1"
            (if sampleDev.reading_interval ≠ 0 then some sampleDev.reading_interval else none),
          { sampleDB with
            devices := sampleDB.devices.map
              (fun d => if d.id == sampleDev.id then dev' else d)
            readings := sampleDB.readings ++ rows })
      ∧ rows.length = (([{ sensor := some "temperature", value := .jnum 21
                           unit := some "C", timestamp := none },
                         { sensor := some "humidity", value := .jnum 40
                           unit := some "", timestamp := none }] :
                        List ReadingItem).countP (fun it => wellFormedReading it))
      ∧ dev'.total_readings = sampleDev.total_readings +
          (([{ sensor := some "temperature", value := .jnum 21
               unit := some "C", timestamp := none },
             { sensor := some "humidity", value := .jnum 40
               unit := some "", timestamp := none }] :
            List ReadingItem).countP (fun it => wellFormedReading it)) :=
  c3_batch_ingestion idHash idHash_sound "fk" 7 "10.0.0.2" _ sampleDB
    "esp32-a1" sampleDev "secret1" rfl (by decide) (by decide) rfl rfl rfl rfl
    (by
      intro it hit hv
      cases hit with
      | head => exact ⟨21, rfl⟩
      | tail _ h =>
        cases h with
        | head => exact ⟨40, rfl⟩
        | tail _ h2 => cases h2)

/-- Counterexample to claim C3 as stated: a batch holding one well-formed
reading and one malformed reading whose value is the non-numeric string
"abc" is not partially accepted with received = 1; the Decimal conversion
raises, the whole request is answered 500 and nothing is persisted. -/
theorem c3_counterexample :
    post_readings idHash "fk" 5 "10.0.0.2"
        (some { device_id := some "esp32-a1", api_key := some "secret1"
                firmware_version := none, mac_address := none, wifi_ssid := none
                signal_strength := none
                readings := [{ sensor := some "temperature", value := .jnum 21
                               unit := some "C", timestamp := none },
                             { sensor := some "temperature", value := .jstr "abc"
                               unit := some "C", timestamp := none }] }) sampleDB =
      (.internalError, sampleDB)
    ∧ wellFormedReading { sensor := some "temperature", value := .jnum 21
                          unit := some "C", timestamp := none } = true
    ∧ wellFormedReading { sensor := some "temperature", value := .jstr "abc"
                          unit := some "C", timestamp := none } = false := by
  refine ⟨?_, by decide, by decide⟩
  decide

/-- A sample active firmware record. -/
def sampleFw : Firmware :=
  { id := 1
    version := "1.0.0"
    filename := "firmware_100.bin"
    file_size := 987654
    release_notes := some "fixes"
    uploaded_at := 50
    active := true
    download_count := 3 }

/-- A database holding the approved sample device and the sample firmware. -/
def otaDB : DB :=
  { devices := [sampleDev]
    readings := []
    firmwares := [sampleFw]
    updates := []
    nextDeviceId := 2
    nextUpdateId := 1 }

/-- Claim C4: for an existing device, the update check against a non-empty
catalog reports update_available exactly when the latest active version
differs from the declared version as a string (equality character for
character reports false, any other string, lexically newer included,
reports true with that version offered); an empty catalog reports
update_available false with a message instead of an error. -/
theorem c4_update_check (did v : String) (db : DB) (dev : Device)
    (hne : did ≠ "")
    (hfound : db.devices.find? (fun d => d.device_id == did) = some dev) :
    (∀ fw, latestActive db.firmwares = some fw →
      (fw.version ≠ v →
        ota_check (some did) (some v) db =
          .ok { update_available := true
                current_version := v
                new_version := some fw.version
                file_size := some fw.file_size
                url := some ("/api/ota/download/" ++ fw.version)
                release_notes := some fw.release_notes })
      ∧ (fw.version = v →
        ota_check (some did) (some v) db =
          .ok { update_available := false, current_version := v }))
    ∧ (latestActive db.firmwares = none →
      ota_check (some did) (some v) db =
        .ok { update_available := false
              current_version := v
              message := some "No firmware available" }) := by
  have h1 : truthyS (some did) = true := by simp [truthyS, hne]
  refine ⟨fun fw hfw => ⟨fun hvne => ?_, fun hveq => ?_⟩, fun hnone => ?_⟩
  · simp [ota_check, h1, hfound, hfw, bne_iff_ne, hvne]
  · simp [ota_check, h1, hfound, hfw, hveq]
  · simp [ota_check, h1, hfound, hnone]

/-- Witness for C4: declared version "1.0.1" against a catalog whose latest
active version is "1.0.0" is offered an update to "1.0.0" even though the
declared string is lexically newer. -/
theorem c4_update_check_witness :
    ota_check (some "esp32-a1") (some "1.0.1") otaDB =
      .ok { update_available := true
            current_version := "1.0.1"
            new_version := some "1.0.0"
            file_size := some 987654
            url := some "/api/ota/download/1.0.0"
            release_notes := some (some "fixes") } :=
  ((c4_update_check "esp32-a1" "1.0.1" otaDB sampleDev (by decide) rfl).1
    sampleFw rfl).1 (by decide)

/-- Claim C5 (amended): the status-report endpoint validates only the
presence of device_id, version and status (a missing or empty field is
answered 400 with no state change); the status value itself is never
checked against the set containing success and failed, so an arbitrary
non-empty status passes validation. -/
theorem c5_status_presence_validation (body : Option OtaStatusRequest) (now : Nat)
    (db : DB)
    (h : body = none ∨ ∃ data, body = some data ∧
        (data.device_id = none ∨ data.device_id = some "" ∨
         data.version = none ∨ data.version = some "" ∨
         data.status = none ∨ data.status = some "")) :
    ota_status body now db = (.badRequest, db) := by
  rcases h with rfl | ⟨data, rfl, h | h | h | h | h | h⟩
  · rfl
  all_goals simp [ota_status, truthyS, h]

/-- Witness for C5 (amended): a report missing its status field is
rejected 400 with the database unchanged. -/
theorem c5_status_presence_validation_witness :
    ota_status (some { device_id := some "esp32-a1", version := some "1.0.0"
                       status := none, error_message := none }) 9 otaDB =
      (.badRequest, otaDB) :=
  c5_status_presence_validation _ 9 otaDB
    (Or.inr ⟨_, rfl, Or.inr (Or.inr (Or.inr (Or.inr (Or.inl rfl))))⟩)

/-- Counterexample to claim C5 as stated: a status report whose status is
"bananas", neither success nor failed, is not rejected with 400; the
endpoint records it as accepted and answers 200 ok. -/
theorem c5_counterexample :
    ota_status (some { device_id := some "esp32-a1", version := some "2.0.0"
                       status := some "bananas", error_message := none }) 9 sampleDB =
      (.ok, sampleDB)
    ∧ ("bananas" : String) ≠ "success"
    ∧ ("bananas" : String) ≠ "failed" := by
  refine ⟨by decide, by decide, by decide⟩

/-- Claim C6: for an existing device, a success report sets the device's
firmware_version to the reported version and a failed report leaves it
unchanged; the most recently started matching DeviceUpdate, when one
exists, receives the reported status and a completion timestamp, and a
report matching no DeviceUpdate is still answered ok. -/
theorem c6_report_status_effects (data : OtaStatusRequest) (now : Nat) (db : DB)
    (did v st : String) (dev : Device)
    (hdid : data.device_id = some did) (hne : did ≠ "")
    (hv : data.version = some v) (hvne : v ≠ "")
    (hst : data.status = some st) (hstne : st ≠ "")
    (hfound : db.devices.find? (fun d => d.device_id == did) = some dev) :
    (ota_status (some data) now db).1 = .ok
    ∧ (st = "success" →
        (ota_status (some data) now db).2.devices =
          db.devices.map (fun d =>
            if d.id == dev.id then { d with firmware_version := some v } else d))
    ∧ (st = "failed" →
        (ota_status (some data) now db).2.devices = db.devices)
    ∧ (findLatestUpdate db.updates dev.id v = none →
        (ota_status (some data) now db).2.updates = db.updates)
    ∧ (∀ u, findLatestUpdate db.updates dev.id v = some u →
        (ota_status (some data) now db).2.updates =
          db.updates.map (fun w =>
            if w.id == u.id then
              { w with
                status := st
                update_completed_at := some now
                error_message :=
                  if truthyS data.error_message then data.error_message
                  else w.error_message }
            else w)) := by
  have h1 : truthyS (some did) = true := by simp [truthyS, hne]
  have h2 : truthyS (some v) = true := by simp [truthyS, hvne]
  have h3 : truthyS (some st) = true := by simp [truthyS, hstne]
  refine ⟨?_, ?_, ?_, ?_, ?_⟩
  · cases hfl : findLatestUpdate db.updates dev.id v <;>
      simp [ota_status, hdid, hv, hst, h1, h2, h3, hfound, hfl]
  · intro hsc
    subst hsc
    cases hfl : findLatestUpdate db.updates dev.id v <;>
      simp [ota_status, hdid, hv, hst, h1, h2, h3, hfound, hfl]
  · intro hsf
    subst hsf
    have hb : (("failed" : String) == "success") = false := by decide
    cases hfl : findLatestUpdate db.updates dev.id v <;>
      simp [ota_status, hdid, hv, hst, h1, h2, h3, hfound, hfl, hb]
  · intro hfl
    simp [ota_status, hdid, hv, hst, h1, h2, h3, hfound, hfl]
    split <;> rfl
  · intro u hfl
    simp [ota_status, hdid, hv, hst, h1, h2, h3, hfound, hfl]
    split <;> rfl

/-- A pending update row for the sample device and the sample firmware. -/
def sampleUpd : DeviceUpdate :=
  { id := 1
    device_id := 1
    firmware_id := 1
    previous_version := some "1.0.0"
    new_version := "1.0.1"
    update_started_at := 60
    update_completed_at := none
    status := "downloading"
    error_message := none }

/-- A database with the sample device, the sample firmware and one started
update attempt. -/
def statusDB : DB :=
  { devices := [sampleDev]
    readings := []
    firmwares := [sampleFw]
    updates := [sampleUpd]
    nextDeviceId := 2
    nextUpdateId := 2 }

/-- Witness for C6: a success report for version "1.0.1" in the database
with one started attempt. -/
theorem c6_report_status_effects_witness :
    (ota_status (some { device_id := some "esp32-a1", version := some "1.0.1"
                        status := some "success", error_message := none }) 70 statusDB).1 =
        .ok
    ∧ ((("success" : String) = "success") →
        (ota_status (some { device_id := some "esp32-a1", version := some "1.0.1"
                            status := some "success", error_message := none }) 70
            statusDB).2.devices =
          statusDB.devices.map (fun d =>
            if d.id == sampleDev.id then { d with firmware_version := some "1.0.1" }
            else d))
    ∧ ((("success" : String) = "failed") →
        (ota_status (some { device_id := some "esp32-a1", version := some "1.0.1"
                            status := some "success", error_message := none }) 70
            statusDB).2.devices = statusDB.devices)
    ∧ (findLatestUpdate statusDB.updates sampleDev.id "1.0.1" = none →
        (ota_status (some { device_id := some "esp32-a1", version := some "1.0.1"
                            status := some "success", error_message := none }) 70
            statusDB).2.updates = statusDB.updates)
    ∧ (∀ u, findLatestUpdate statusDB.updates sampleDev.id "1.0.1" = some u →
        (ota_status (some { device_id := some "esp32-a1", version := some "1.0.1"
                            status := some "success", error_message := none }) 70
            statusDB).2.updates =
          statusDB.updates.map (fun w =>
            if w.id == u.id then
              { w with
                status := "success"
                update_completed_at := some 70
                error_message :=
                  if truthyS (none : Option String) then (none : Option String)
                  else w.error_message }
            else w)) :=
  c6_report_status_effects _ 70 statusDB "esp32-a1" "1.0.1" "success" sampleDev
    rfl (by decide) rfl (by decide) rfl (by decide) rfl

/-- Claim C7: a download request for an active version with a resolvable
device_id appends exactly one DeviceUpdate row in downloading state
(previous version the device's declared one, new version the requested
one) and increments the firmware's download counter, and the committed
state is the same whether or not the binary is then found on storage; the
missing binary only changes the response. -/
theorem c7_download_tracking (v did : String) (now : Nat) (db : DB)
    (fw : Firmware) (dev : Device)
    (hfw : db.firmwares.find? (fun f => f.version == v && f.active) = some fw)
    (hne : did ≠ "")
    (hdev : db.devices.find? (fun d => d.device_id == did) = some dev) :
    (∀ b, (ota_download v (some did) b now db).2.updates =
        db.updates ++
          [{ id := db.nextUpdateId
             device_id := dev.id
             firmware_id := fw.id
             previous_version := dev.firmware_version
             new_version := v
             update_started_at := now
             update_completed_at := none
             status := "downloading"
             error_message := none }])
    ∧ (∀ b, (ota_download v (some did) b now db).2.firmwares =
        db.firmwares.map (fun f =>
          if f.id == fw.id then { f with download_count := f.download_count + 1 }
          else f))
    ∧ (ota_download v (some did) false now db).1 = .fileMissing
    ∧ (ota_download v (some did) true now db).1 = .file v fw.filename
    ∧ (ota_download v (some did) false now db).2 =
        (ota_download v (some did) true now db).2 := by
  have h1 : truthyS (some did) = true := by simp [truthyS, hne]
  refine ⟨?_, ?_, ?_, ?_, ?_⟩
  · intro b
    cases b <;> simp [ota_download, hfw, h1, hdev]
  · intro b
    cases b <;> simp [ota_download, hfw, h1, hdev]
  · simp [ota_download, hfw, h1, hdev]
  · simp [ota_download, hfw, h1, hdev]
  · simp [ota_download, hfw, h1, hdev]

/-- Witness for C7: a tracked download of the active sample firmware by the
sample device. -/
theorem c7_download_tracking_witness :
    (∀ b, (ota_download "1.0.0" (some "esp32-a1") b 80 otaDB).2.updates =
        otaDB.updates ++
          [{ id := otaDB.nextUpdateId
             device_id := sampleDev.id
             firmware_id := sampleFw.id
             previous_version := sampleDev.firmware_version
             new_version := "1.0.0"
             update_started_at := 80
             update_completed_at := none
             status := "downloading"
             error_message := none }])
    ∧ (∀ b, (ota_download "1.0.0" (some "esp32-a1") b 80 otaDB).2.firmwares =
        otaDB.firmwares.map (fun f =>
          if f.id == sampleFw.id then { f with download_count := f.download_count + 1 }
          else f))
    ∧ (ota_download "1.0.0" (some "esp32-a1") false 80 otaDB).1 = .fileMissing
    ∧ (ota_download "1.0.0" (some "esp32-a1") true 80 otaDB).1 =
        .file "1.0.0" sampleFw.filename
    ∧ (ota_download "1.0.0" (some "esp32-a1") false 80 otaDB).2 =
        (ota_download "1.0.0" (some "esp32-a1") true 80 otaDB).2 :=
  c7_download_tracking "1.0.0" "esp32-a1" 80 otaDB sampleFw sampleDev
    rfl (by decide) rfl

/-- Claim C8: a download request for a version with no firmware record, or
only an inactive one, is answered not-found and the database is unchanged:
no DeviceUpdate row appears and no download counter moves. -/
theorem c8_download_not_found (v : String) (did : Option String) (b : Bool)
    (now : Nat) (db : DB)
    (h : ∀ fw ∈ db.firmwares, fw.version = v → fw.active = false) :
    ota_download v did b now db = (.notFound, db) := by
  have hfind : db.firmwares.find? (fun f => f.version == v && f.active) = none := by
    rw [List.find?_eq_none]
    intro fw hfw
    simp only [Bool.and_eq_true, beq_iff_eq, not_and]
    intro hv
    simp [h fw hfw hv]
  simp [ota_download, hfind]

/-- An inactive firmware record. -/
def inactiveFw : Firmware :=
  { id := 2
    version := "0.9.0"
    filename := "firmware_090.bin"
    file_size := 12345
    release_notes := none
    uploaded_at := 20
    active := false
    download_count := 7 }

/-- A database whose only firmware is inactive. -/
def inactiveDB : DB :=
  { devices := [sampleDev]
    readings := []
    firmwares := [inactiveFw]
    updates := []
    nextDeviceId := 2
    nextUpdateId := 1 }

/-- Witness for C8: downloading the inactive version "0.9.0" is answered
not-found and changes nothing. -/
theorem c8_download_not_found_witness :
    ota_download "0.9.0" (some "esp32-a1") true 5 inactiveDB =
      (.notFound, inactiveDB) :=
  c8_download_not_found "0.9.0" (some "esp32-a1") true 5 inactiveDB (by decide)

/-- The number of accepted requests recorded for `key` no older than `T`. -/
def limiterCountFrom (st : LimiterState) (key : String) (T : Nat) : Nat :=
  st.accepted.countP (fun p => p.1 == key && decide (T ≤ p.2))

/-- Budget argument for the limiter: a run of same-key requests all inside
the window [T, T + 60) in which the recorded count plus the run length
passes the budget of 60 must reject at least one request. -/
theorem runGate_reject_of_budget (H : HashFn) (k : String) (T : Nat) :
    ∀ (reqs : List IngestRequest) (st : LimiterState) (db : DB),
      (∀ r ∈ reqs, get_rate_limit_key r.body r.remote_addr = k ∧
        T ≤ r.now ∧ r.now < T + 60) →
      reqs ≠ [] →
      61 ≤ limiterCountFrom st k T + reqs.length →
      ReadingsResponse.rateLimited ∈ runGate H st db reqs := by
  intro reqs
  induction reqs with
  | nil => intro st db _ hne _; exact absurd rfl hne
  | cons r rest ih =>
    intro st db hall hne hbud
    obtain ⟨hk, hT0, hT1⟩ := hall r (List.mem_cons_self _ _)
    by_cases hcnt :
        st.accepted.countP (fun p => p.1 == k && decide (r.now < p.2 + 60)) < 60
    · have hmono : limiterCountFrom st k T ≤
          st.accepted.countP (fun p => p.1 == k && decide (r.now < p.2 + 60)) := by
        apply List.countP_mono_left
        intro p hp hpp
        simp only [Bool.and_eq_true, decide_eq_true_eq] at hpp ⊢
        exact ⟨hpp.1, by omega⟩
      have hlt : limiterCountFrom st k T < 60 := lt_of_le_of_lt hmono hcnt
      have hrest : rest ≠ [] := by
        intro hnil
        subst hnil
        simp only [List.length_cons, List.length_nil] at hbud
        omega
      have hstep : runGate H st db (r :: rest) =
          (post_readings H r.freshKey r.now r.remote_addr r.body db).1 ::
            runGate H ⟨(k, r.now) :: st.accepted⟩
              (post_readings H r.freshKey r.now r.remote_addr r.body db).2 rest := by
        simp [runGate, gatedPostReadings, hk, rateLimitAllow, hcnt]
      rw [hstep]
      apply List.mem_cons_of_mem
      apply ih _ _ (fun x hx => hall x (List.mem_cons_of_mem _ hx)) hrest
      have hcc : limiterCountFrom ⟨(k, r.now) :: st.accepted⟩ k T =
          limiterCountFrom st k T + 1 := by
        simp [limiterCountFrom, List.countP_cons, hT0]
      rw [hcc]
      simp only [List.length_cons] at hbud
      omega
    · have hstep : runGate H st db (r :: rest) =
          .rateLimited :: runGate H st db rest := by
        simp [runGate, gatedPostReadings, hk, rateLimitAllow, hcnt]
      rw [hstep]
      exact List.mem_cons_self _ _

/-- Claim C9: sixty-one gated ingestion requests carrying the same
device_id in their bodies, all within one rolling minute, always produce at
least one rate-limited response, whatever the limiter state, database and
hash oracle; the key is derived from the body's device_id by
get_rate_limit_key. -/
theorem c9_rate_limited (H : HashFn) (st : LimiterState) (db : DB) (d : String)
    (T : Nat) (reqs : List IngestRequest)
    (hlen : reqs.length = 61)
    (hbodies : ∀ r ∈ reqs,
      (∃ data, r.body = some data ∧ data.device_id = some d)
      ∧ T ≤ r.now ∧ r.now < T + 60) :
    ReadingsResponse.rateLimited ∈ runGate H st db reqs := by
  apply runGate_reject_of_budget H ("device:" ++ d) T reqs st db
  · intro r hr
    obtain ⟨⟨data, hb, hd⟩, h1, h2⟩ := hbodies r hr
    refine ⟨?_, h1, h2⟩
    simp [get_rate_limit_key, hb, hd]
  · intro hnil
    rw [hnil] at hlen
    simp at hlen
  · rw [hlen]
    omega

/-- Witness for C9: sixty-one identical burst requests at time 0 from a
fresh limiter hit the throttle. -/
theorem c9_rate_limited_witness :
    ReadingsResponse.rateLimited ∈
      runGate idHash ⟨[]⟩ sampleDB
        (List.replicate 61
          { freshKey := "fk", now := 0, remote_addr := "10.0.0.2"
            body := some { device_id := some "esp32-a1", api_key := some "secret1"
                           firmware_version := none, mac_address := none
                           wifi_ssid := none, signal_strength := none
                           readings := [{ sensor := some "temperature"
                                          value := .jnum 1, unit := some "C"
                                          timestamp := none }] } }) :=
  c9_rate_limited idHash ⟨[]⟩ sampleDB "esp32-a1" 0 _
    (by simp)
    (by
      intro r hr
      have hre := List.eq_of_mem_replicate hr
      subst hre
      exact ⟨⟨_, rfl, rfl⟩, by decide, by decide⟩)

end LocalFeather
